import Mathlib

/-!
Shallow embedding of the scheduling core of `scheduler/models/scheduled_job.py`
(django-rq-scheduler).

Modelling conventions:
* Instants are whole seconds (`Int`); `timezone.now()` becomes an explicit
  `now : Int` parameter, held fixed for the duration of one method call.
* The external queue together with its scheduled-job registry is a
  `QueueState`: the list of queue-entry ids currently in the
  scheduled-job registry plus a fresh-id counter standing for the queue's
  generation of new entry ids (`enqueue_at` returns a fresh id and puts it
  into the registry).
* Django model instances become Lean structures; nullable fields become
  `Option`; the `repeat` field is spelled `repeats` because `repeat` is a
  Lean keyword.
* `math.ceil(a / b)` on float timestamps is idealised as `⌈(a : ℚ) / b⌉`.
* Methods that mutate `self` return the updated record explicitly.
-/

namespace Scheduler

/-- The external queue/registry state: `registry` is the set (as a list) of
queue-entry ids present in the scheduled-job registry, `nextId` the next
fresh id the queue hands out on `enqueue_at`. -/
structure QueueState where
  registry : List Nat
  nextId : Nat
deriving DecidableEq

namespace BaseJob

/-- `BaseJob.is_scheduled`: `job_id` is set and present in the external
scheduled-job registry. -/
def is_scheduled (job_id : Option Nat) (registry : List Nat) : Bool :=
  match job_id with
  | none => false
  | some i => registry.contains i

/-- `BaseJob.ready_for_schedule`: blocked when already scheduled, then when
disabled; otherwise eligible. -/
def ready_for_schedule (enabled : Bool) (job_id : Option Nat)
    (registry : List Nat) : Bool :=
  if is_scheduled job_id registry then false
  else if !enabled then false
  else true

/-- `queue.enqueue_at(...)`: the queue creates a fresh entry id, the entry
enters the scheduled-job registry, and the id is returned. -/
def enqueue_at (q : QueueState) : Nat × QueueState :=
  (q.nextId, { registry := q.nextId :: q.registry, nextId := q.nextId + 1 })

/-- `BaseJob.unschedule`: when scheduled, remove the entry from the registry;
in all cases clear `job_id` to `None` and return `True`. -/
def unschedule (job_id : Option Nat) (q : QueueState) :
    Option Nat × QueueState × Bool :=
  match job_id with
  | some i =>
    if is_scheduled (some i) q.registry then
      (none, { q with registry := q.registry.erase i }, true)
    else
      (none, q, true)
  | none => (none, q, true)

end BaseJob

/-- `ScheduledJob` (fixed-instant kind): the fields the scheduling core
reads. `scheduled_time` is an `Option` because the in-memory object may
carry no value (the code guards with `is not None`). -/
structure ScheduledJob where
  enabled : Bool
  job_id : Option Nat
  scheduled_time : Option Int
deriving DecidableEq

namespace ScheduledJob

/-- `ScheduledJob.ready_for_schedule`: the base check, then blocked when a
configured `scheduled_time` lies in the past. -/
def ready_for_schedule (j : ScheduledJob) (registry : List Nat) (now : Int) :
    Bool :=
  if BaseJob.ready_for_schedule j.enabled j.job_id registry = false then false
  else
    match j.scheduled_time with
    | some t => if t < now then false else true
    | none => true

/-- `BaseJob.schedule` specialised to `ScheduledJob`: on eligibility,
enqueue and store the returned entry id. -/
def schedule (j : ScheduledJob) (q : QueueState) (now : Int) :
    ScheduledJob × QueueState × Bool :=
  if j.ready_for_schedule q.registry now = false then (j, q, false)
  else
    let (newId, q1) := BaseJob.enqueue_at q
    ({ j with job_id := some newId }, q1, true)

/-- `BaseJob.unschedule` specialised to `ScheduledJob`. -/
def unschedule (j : ScheduledJob) (q : QueueState) :
    ScheduledJob × QueueState × Bool :=
  let r := BaseJob.unschedule j.job_id q
  ({ j with job_id := r.1 }, r.2.1, r.2.2)

/-- `BaseJob.save` specialised to `ScheduledJob`: persist, then (unless
`schedule_job` is `False`) run `schedule()` and persist again. Persistence
itself has no observable effect on the modelled state. -/
def save (j : ScheduledJob) (schedule_job : Bool) (q : QueueState)
    (now : Int) : ScheduledJob × QueueState :=
  if schedule_job then
    let r := j.schedule q now
    (r.1, r.2.1)
  else (j, q)

end ScheduledJob

/-- The interval units of `RepeatableJob.UNITS`. -/
inductive IntervalUnit
  | seconds
  | minutes
  | hours
  | days
  | weeks
deriving DecidableEq

/-- Seconds in one interval unit, as `timedelta(**{unit: 1}).total_seconds()`
computes it. -/
def IntervalUnit.factor : IntervalUnit → Nat
  | .seconds => 1
  | .minutes => 60
  | .hours => 3600
  | .days => 86400
  | .weeks => 604800

/-- `RepeatableJob` (interval kind). `repeats` models the source field
`repeat` (nullable positive integer: `none` means run forever). -/
structure RepeatableJob where
  enabled : Bool
  job_id : Option Nat
  repeats : Option Int
  scheduled_time : Int
  interval : Nat
  interval_unit : IntervalUnit
  result_ttl : Option Int
deriving DecidableEq

namespace RepeatableJob

/-- `RepeatableJob.interval_seconds`:
`timedelta(**{interval_unit: interval}).total_seconds()`. -/
def interval_seconds (j : RepeatableJob) : Nat :=
  j.interval * j.interval_unit.factor

/-- `RepeatableJob.ready_for_schedule`: the base check, then catch-up
advancement (`gap = ceil((now - scheduled_time) / interval_seconds)`,
advance when `repeat is None or repeat >= gap`), then blocked when
`scheduled_time` is still in the past. Returns the possibly advanced
record together with the verdict. -/
def ready_for_schedule (j : RepeatableJob) (registry : List Nat)
    (now : Int) : RepeatableJob × Bool :=
  if BaseJob.ready_for_schedule j.enabled j.job_id registry = false then
    (j, false)
  else
    let j1 :=
      if j.scheduled_time < now then
        let gap : Int :=
          ⌈((now - j.scheduled_time : Int) : ℚ) / (j.interval_seconds : ℚ)⌉
        match j.repeats with
        | none =>
          { j with scheduled_time :=
              j.scheduled_time + (j.interval_seconds : Int) * gap }
        | some r =>
          if gap ≤ r then
            { j with
                scheduled_time :=
                  j.scheduled_time + (j.interval_seconds : Int) * gap,
                repeats := some (r - gap) }
          else j
      else j
    if j1.scheduled_time < now then (j1, false) else (j1, true)

/-- `BaseJob.schedule` specialised to `RepeatableJob`: the eligibility
check may advance the record; on eligibility, enqueue and store the id. -/
def schedule (j : RepeatableJob) (q : QueueState) (now : Int) :
    RepeatableJob × QueueState × Bool :=
  let r := j.ready_for_schedule q.registry now
  if r.2 = false then (r.1, q, false)
  else
    let (newId, q1) := BaseJob.enqueue_at q
    ({ r.1 with job_id := some newId }, q1, true)

/-- `BaseJob.unschedule` specialised to `RepeatableJob`. -/
def unschedule (j : RepeatableJob) (q : QueueState) :
    RepeatableJob × QueueState × Bool :=
  let r := BaseJob.unschedule j.job_id q
  ({ j with job_id := r.1 }, r.2.1, r.2.2)

/-- `BaseJob.save` specialised to `RepeatableJob`. -/
def save (j : RepeatableJob) (schedule_job : Bool) (q : QueueState)
    (now : Int) : RepeatableJob × QueueState :=
  if schedule_job then
    let r := j.schedule q now
    (r.1, r.2.1)
  else (j, q)

/-- `RepeatableJob.clean_result_ttl`: `True` exactly when the validation
raises, i.e. when
`result_ttl and result_ttl != -1 and result_ttl < interval_seconds() and repeat`
holds under Python truthiness (`None` and `0` are falsy). -/
def clean_result_ttl_raises (j : RepeatableJob) : Bool :=
  match j.result_ttl with
  | none => false
  | some v =>
    v != 0 && v != -1 && decide (v < (j.interval_seconds : Int)) &&
      (match j.repeats with
       | none => false
       | some r => r != 0)

end RepeatableJob

/-- `CronJob` (cron kind): no override of `ready_for_schedule`, so only the
base fields matter to the scheduling core. -/
structure CronJob where
  enabled : Bool
  job_id : Option Nat
  cron_string : String
deriving DecidableEq

namespace CronJob

/-- `CronJob` inherits `BaseJob.ready_for_schedule` unchanged. -/
def ready_for_schedule (j : CronJob) (registry : List Nat) : Bool :=
  BaseJob.ready_for_schedule j.enabled j.job_id registry

/-- `BaseJob.schedule` specialised to `CronJob`. -/
def schedule (j : CronJob) (q : QueueState) : CronJob × QueueState × Bool :=
  if j.ready_for_schedule q.registry = false then (j, q, false)
  else
    let (newId, q1) := BaseJob.enqueue_at q
    ({ j with job_id := some newId }, q1, true)

end CronJob

/-- First-match in-place update of the job table, modelling Django saving
the mutated record back. -/
def updateFirst (p : ScheduledJob → Bool) (new : ScheduledJob) :
    List ScheduledJob → List ScheduledJob
  | [] => []
  | r :: rs => if p r then new :: rs else r :: updateFirst p new rs

/-- `callback_save_job`, for a run whose record is of the fixed-instant
kind: read `job_type` from the run's metadata (`none` means absent — do
nothing); resolve the record by `job_id == job.id` (`filter(...).first()`);
if found, `unschedule()`, `schedule()`, `save()` it and commit the result
to the table; otherwise do nothing. -/
def callback_save_job (meta_job_type : Option String) (run_job_id : Nat)
    (db : List ScheduledJob) (q : QueueState) (now : Int) :
    List ScheduledJob × QueueState :=
  match meta_job_type with
  | none => (db, q)
  | some _ =>
    match db.find? (fun r => r.job_id == some run_job_id) with
    | none => (db, q)
    | some sj =>
      let r1 := sj.unschedule q
      let r2 := r1.1.schedule r1.2.1 now
      let r3 := r2.1.save true r2.2.1 now
      (updateFirst (fun r => r.job_id == some run_job_id) r3.1 db, r3.2)

/-- The reconciliation step as the specification words it: perform
`unschedule()`, then `schedule()`, then persist the record, in that
order, returning the final record and queue state. -/
def spec_reschedule (sj : ScheduledJob) (q : QueueState) (now : Int) :
    ScheduledJob × QueueState :=
  let r1 := sj.unschedule q
  let r2 := r1.1.schedule r1.2.1 now
  r2.1.save true r2.2.1 now

/-! Theorems -/

/-- Helper: the base eligibility check passes when the record is enabled
and not already scheduled. -/
theorem base_ready_of_enabled_not_scheduled (enabled : Bool)
    (job_id : Option Nat) (registry : List Nat)
    (hen : enabled = true) (hns : BaseJob.is_scheduled job_id registry = false) :
    BaseJob.ready_for_schedule enabled job_id registry = true := by
  simp [BaseJob.ready_for_schedule, hns, hen]

/-- Claim C1: an interval record with interval `I`, finite repeat count `R`
and `scheduled_time` in the past, with `k = ceil((now - scheduled_time)/I)`
missed intervals and `k ≤ R`, is advanced by the eligibility check to
`scheduled_time + k*I` with `R - k` repeats left. -/
theorem C1_interval_catchup (j : RepeatableJob) (q : QueueState) (now : Int)
    (R k : Nat)
    (hen : j.enabled = true)
    (hns : BaseJob.is_scheduled j.job_id q.registry = false)
    (hR : j.repeats = some (R : Int))
    (hpast : j.scheduled_time < now)
    (hk : (k : Int) =
      ⌈((now - j.scheduled_time : Int) : ℚ) / (j.interval_seconds : ℚ)⌉)
    (hkR : k ≤ R) :
    (j.ready_for_schedule q.registry now).1.scheduled_time
        = j.scheduled_time + (j.interval_seconds : Int) * (k : Int) ∧
    (j.ready_for_schedule q.registry now).1.repeats
        = some ((R : Int) - (k : Int)) := by
  have hbase := base_ready_of_enabled_not_scheduled j.enabled j.job_id
    q.registry hen hns
  have hkR' : (k : Int) ≤ (R : Int) := by exact_mod_cast hkR
  unfold RepeatableJob.ready_for_schedule
  rw [hbase]
  simp only [Bool.true_eq_false, if_false, if_pos hpast, hR, ← hk,
    if_pos hkR']
  split <;> simp

/-- Witness for C1: a record 125 s in the past with a 60 s interval and 3
repeats left is advanced by `gap = ceil(125/60) = 3` intervals to
`scheduled_time = 180` with 0 repeats left. -/
theorem C1_interval_catchup_witness :
    (0 : Int) < 125 ∧ (3 : Nat) ≤ 3 ∧
    ((⟨true, none, some 3, 0, 60, IntervalUnit.seconds, none⟩ :
        RepeatableJob).ready_for_schedule [] 125).1.scheduled_time = 180 ∧
    ((⟨true, none, some 3, 0, 60, IntervalUnit.seconds, none⟩ :
        RepeatableJob).ready_for_schedule [] 125).1.repeats = some 0 := by
  have hceil : ((3 : Nat) : Int) =
      ⌈((125 - (⟨true, none, some 3, 0, 60, IntervalUnit.seconds, none⟩ :
          RepeatableJob).scheduled_time : Int) : ℚ) /
        (((⟨true, none, some 3, 0, 60, IntervalUnit.seconds, none⟩ :
          RepeatableJob).interval_seconds : ℕ) : ℚ)⌉ := by
    rw [eq_comm, Int.ceil_eq_iff]
    norm_num [RepeatableJob.interval_seconds, IntervalUnit.factor]
  have h := C1_interval_catchup
    ⟨true, none, some 3, 0, 60, IntervalUnit.seconds, none⟩ ⟨[], 0⟩ 125 3 3
    rfl rfl rfl (by decide) hceil (by decide)
  refine ⟨by decide, by decide, ?_, ?_⟩
  · simpa [RepeatableJob.interval_seconds, IntervalUnit.factor] using h.1
  · simpa using h.2

/-- Claim C2: an interval record with finite repeat count `R` and
`scheduled_time` in the past by `k = ceil((now - scheduled_time)/I)` missed
intervals with `k > R` is not advanced by the eligibility check: the record
is unchanged, `scheduled_time` stays in the past, and the check returns
`false`. -/
theorem C2_interval_exhausted (j : RepeatableJob) (q : QueueState) (now : Int)
    (R k : Nat)
    (hen : j.enabled = true)
    (hns : BaseJob.is_scheduled j.job_id q.registry = false)
    (hR : j.repeats = some (R : Int))
    (hpast : j.scheduled_time < now)
    (hk : (k : Int) =
      ⌈((now - j.scheduled_time : Int) : ℚ) / (j.interval_seconds : ℚ)⌉)
    (hkR : R < k) :
    j.ready_for_schedule q.registry now = (j, false) ∧
    (j.ready_for_schedule q.registry now).1.scheduled_time < now := by
  have hbase := base_ready_of_enabled_not_scheduled j.enabled j.job_id
    q.registry hen hns
  have hkR' : ¬((k : Int) ≤ (R : Int)) := not_le.mpr (by exact_mod_cast hkR)
  unfold RepeatableJob.ready_for_schedule
  rw [hbase]
  simp only [Bool.true_eq_false, if_false, if_pos hpast, hR, ← hk,
    if_neg hkR']
  exact ⟨by simp [if_pos hpast], by simpa [if_pos hpast] using hpast⟩

/-- Witness for C2: a record 125 s in the past with a 60 s interval and only
2 repeats left (`gap = 3 > 2`) is left unchanged and ineligible. -/
theorem C2_interval_exhausted_witness :
    (0 : Int) < 125 ∧ (2 : Nat) < 3 ∧
    (⟨true, none, some 2, 0, 60, IntervalUnit.seconds, none⟩ :
        RepeatableJob).ready_for_schedule [] 125 =
      (⟨true, none, some 2, 0, 60, IntervalUnit.seconds, none⟩, false) := by
  have hceil : ((3 : Nat) : Int) =
      ⌈((125 - (⟨true, none, some 2, 0, 60, IntervalUnit.seconds, none⟩ :
          RepeatableJob).scheduled_time : Int) : ℚ) /
        (((⟨true, none, some 2, 0, 60, IntervalUnit.seconds, none⟩ :
          RepeatableJob).interval_seconds : ℕ) : ℚ)⌉ := by
    rw [eq_comm, Int.ceil_eq_iff]
    norm_num [RepeatableJob.interval_seconds, IntervalUnit.factor]
  have h := C2_interval_exhausted
    ⟨true, none, some 2, 0, 60, IntervalUnit.seconds, none⟩ ⟨[], 0⟩ 125 2 3
    rfl rfl rfl (by decide) hceil (by decide)
  exact ⟨by decide, by decide, h.1⟩

/-- Helper: the base eligibility check fails on a disabled record. -/
theorem base_not_ready_of_disabled (enabled : Bool) (job_id : Option Nat)
    (registry : List Nat) (hen : enabled = false) :
    BaseJob.ready_for_schedule enabled job_id registry = false := by
  simp [BaseJob.ready_for_schedule, hen]

/-- Counterexample to C3: schedule an enabled fixed-instant record, then set
`enabled := false` and save it. Afterwards the record is disabled yet its
queue entry is still live in the registry: `ready_for_schedule` tests
`is_scheduled` before `enabled`, and no operation in the sequence removes
the entry. -/
theorem C3_counterexample :
    ((ScheduledJob.save
        { (ScheduledJob.schedule ⟨true, none, some 100⟩ ⟨[], 0⟩ 0).1 with
            enabled := false }
        true (ScheduledJob.schedule ⟨true, none, some 100⟩ ⟨[], 0⟩ 0).2.1
        0).1.enabled = false) ∧
    BaseJob.is_scheduled
      (ScheduledJob.save
        { (ScheduledJob.schedule ⟨true, none, some 100⟩ ⟨[], 0⟩ 0).1 with
            enabled := false }
        true (ScheduledJob.schedule ⟨true, none, some 100⟩ ⟨[], 0⟩ 0).2.1
        0).1.job_id
      (ScheduledJob.save
        { (ScheduledJob.schedule ⟨true, none, some 100⟩ ⟨[], 0⟩ 0).1 with
            enabled := false }
        true (ScheduledJob.schedule ⟨true, none, some 100⟩ ⟨[], 0⟩ 0).2.1
        0).2.registry = true := by decide

/-- Claim C3 (amended): a disabled record is never *newly* scheduled — for
every job kind, `schedule()` on a disabled record returns `false` and
leaves both the record and the queue state unchanged. (The invariant as
originally claimed fails: disabling an already-scheduled record and saving
it leaves its existing queue entry live, see the counterexample.) -/
theorem C3_amended_disabled_never_newly_scheduled :
    (∀ (j : ScheduledJob) (q : QueueState) (now : Int),
        j.enabled = false → j.schedule q now = (j, q, false)) ∧
    (∀ (j : RepeatableJob) (q : QueueState) (now : Int),
        j.enabled = false → j.schedule q now = (j, q, false)) ∧
    (∀ (j : CronJob) (q : QueueState),
        j.enabled = false → j.schedule q = (j, q, false)) := by
  refine ⟨?_, ?_, ?_⟩
  · intro j q now hd
    simp [ScheduledJob.schedule, ScheduledJob.ready_for_schedule,
      base_not_ready_of_disabled _ _ _ hd]
  · intro j q now hd
    simp [RepeatableJob.schedule, RepeatableJob.ready_for_schedule,
      base_not_ready_of_disabled _ _ _ hd]
  · intro j q hd
    simp [CronJob.schedule, CronJob.ready_for_schedule,
      base_not_ready_of_disabled _ _ _ hd]

/-- Witness for the amended C3: a concrete disabled record with a stale id
is rejected by `schedule()` with no state change. -/
theorem C3_amended_witness :
    ((⟨false, some 5, some 10⟩ : ScheduledJob).enabled = false) ∧
    ScheduledJob.schedule ⟨false, some 5, some 10⟩ ⟨[5], 6⟩ 0 =
      (⟨false, some 5, some 10⟩, ⟨[5], 6⟩, false) :=
  ⟨rfl, C3_amended_disabled_never_newly_scheduled.1
    ⟨false, some 5, some 10⟩ ⟨[5], 6⟩ 0 rfl⟩

/-- Claim C4: `unschedule()` always returns `true` and leaves `job_id` as
`None`; calling it twice in a row returns `true` both times; and on a stale
id (absent from the registry) it clears the local id and returns `true`
without touching the queue state. -/
theorem C4_unschedule_idempotent :
    (∀ (job_id : Option Nat) (q : QueueState),
        (BaseJob.unschedule job_id q).1 = none ∧
        (BaseJob.unschedule job_id q).2.2 = true ∧
        BaseJob.unschedule (BaseJob.unschedule job_id q).1
            (BaseJob.unschedule job_id q).2.1 =
          (none, (BaseJob.unschedule job_id q).2.1, true)) ∧
    (∀ (i : Nat) (q : QueueState), q.registry.contains i = false →
        BaseJob.unschedule (some i) q = (none, q, true)) := by
  constructor
  · intro job_id q
    have h1 : (BaseJob.unschedule job_id q).1 = none := by
      rcases job_id with _ | i
      · rfl
      · simp only [BaseJob.unschedule]
        split <;> rfl
    have h2 : (BaseJob.unschedule job_id q).2.2 = true := by
      rcases job_id with _ | i
      · rfl
      · simp only [BaseJob.unschedule]
        split <;> rfl
    refine ⟨h1, h2, ?_⟩
    rw [h1]
    rfl
  · intro i q h
    have h' : BaseJob.is_scheduled (some i) q.registry = false := by
      simp only [BaseJob.is_scheduled]
      exact h
    simp only [BaseJob.unschedule, h', Bool.false_eq_true, if_false]

/-- Witness for C4: unscheduling a record whose id `7` is stale (registry
holds only `3` and `4`) clears the id, returns `true` and leaves the queue
state unchanged. -/
theorem C4_unschedule_idempotent_witness :
    (QueueState.mk [3, 4] 9).registry.contains 7 = false ∧
    BaseJob.unschedule (some 7) ⟨[3, 4], 9⟩ = (none, ⟨[3, 4], 9⟩, true) :=
  ⟨by decide, C4_unschedule_idempotent.2 7 ⟨[3, 4], 9⟩ (by decide)⟩

/-- Claim C5: an enabled fixed-instant record that is not already scheduled
and whose `scheduled_time` is in the future (`now ≤ t`) is scheduled:
`schedule()` returns `true` and `is_scheduled()` becomes `true`; and a
fixed-instant record whose `scheduled_time` is in the past (`t < now`) is
blocked by the eligibility check: `schedule()` returns `false`. -/
theorem C5_fixed_instant_scheduling :
    (∀ (j : ScheduledJob) (q : QueueState) (now t : Int),
        j.enabled = true →
        BaseJob.is_scheduled j.job_id q.registry = false →
        j.scheduled_time = some t → now ≤ t →
        (j.schedule q now).2.2 = true ∧
        BaseJob.is_scheduled (j.schedule q now).1.job_id
          (j.schedule q now).2.1.registry = true) ∧
    (∀ (j : ScheduledJob) (q : QueueState) (now t : Int),
        j.scheduled_time = some t → t < now →
        (j.schedule q now).2.2 = false) := by
  constructor
  · intro j q now t hen hns ht hfut
    have hready : j.ready_for_schedule q.registry now = true := by
      simp [ScheduledJob.ready_for_schedule,
        base_ready_of_enabled_not_scheduled _ _ _ hen hns, ht,
        not_lt.mpr hfut]
    simp [ScheduledJob.schedule, hready, BaseJob.enqueue_at,
      BaseJob.is_scheduled]
  · intro j q now t ht hpast
    have hready : j.ready_for_schedule q.registry now = false := by
      unfold ScheduledJob.ready_for_schedule
      split
      · rfl
      · simp [ht, hpast]
    simp [ScheduledJob.schedule, hready]

/-- Witness for C5: an enabled, unscheduled record due at `t = 50` with
`now = 0` gets scheduled; a record due at `t = 50` with `now = 100` is
rejected. -/
theorem C5_fixed_instant_scheduling_witness :
    ((⟨true, none, some 50⟩ : ScheduledJob).enabled = true) ∧
    BaseJob.is_scheduled (none : Option Nat) [] = false ∧
    (0 : Int) ≤ 50 ∧
    (ScheduledJob.schedule ⟨true, none, some 50⟩ ⟨[], 0⟩ 0).2.2 = true ∧
    BaseJob.is_scheduled
      (ScheduledJob.schedule ⟨true, none, some 50⟩ ⟨[], 0⟩ 0).1.job_id
      (ScheduledJob.schedule ⟨true, none, some 50⟩ ⟨[], 0⟩ 0).2.1.registry
      = true ∧
    (ScheduledJob.schedule ⟨true, some 1, some 50⟩ ⟨[1], 2⟩ 100).2.2
      = false := by
  refine ⟨rfl, rfl, by decide, ?_, ?_, ?_⟩
  · exact (C5_fixed_instant_scheduling.1 ⟨true, none, some 50⟩ ⟨[], 0⟩ 0 50
      rfl rfl rfl (by decide)).1
  · exact (C5_fixed_instant_scheduling.1 ⟨true, none, some 50⟩ ⟨[], 0⟩ 0 50
      rfl rfl rfl (by decide)).2
  · exact C5_fixed_instant_scheduling.2 ⟨true, some 1, some 50⟩ ⟨[1], 2⟩
      100 50 rfl (by decide)

/-- Helper: the catch-up gap is nonnegative whenever the record lies in the
past. -/
theorem gap_nonneg (T now : Int) (I : Nat) (hpast : T < now) :
    0 ≤ ⌈((now - T : Int) : ℚ) / (I : ℚ)⌉ := by
  apply Int.ceil_nonneg
  apply div_nonneg
  · exact_mod_cast le_of_lt (sub_pos.mpr hpast)
  · exact_mod_cast Nat.zero_le I

/-- Helper: with a positive interval, advancing a past `scheduled_time` by
`gap` intervals lands at or after `now`. -/
theorem advance_ge_now (T now : Int) (I : Nat) (hI : 0 < I) :
    now ≤ T + (I : Int) * ⌈((now - T : Int) : ℚ) / (I : ℚ)⌉ := by
  have hIQ : (0 : ℚ) < (I : ℚ) := by exact_mod_cast hI
  have hle : ((now - T : Int) : ℚ) / (I : ℚ) ≤
      (⌈((now - T : Int) : ℚ) / (I : ℚ)⌉ : ℚ) := Int.le_ceil _
  rw [div_le_iff₀ hIQ] at hle
  have h2 : (now - T : Int) ≤ ⌈((now - T : Int) : ℚ) / (I : ℚ)⌉ * (I : Int) := by
    exact_mod_cast hle
  linarith [h2, mul_comm (⌈((now - T : Int) : ℚ) / (I : ℚ)⌉) ((I : Nat) : Int)]

/-- Helper: when the repeatable eligibility check comes back `false`, the
record has not been modified: either the base check failed before the
catch-up code ran, or the repeats were exhausted (`repeat < gap`) and the
advancement branch was skipped. -/
theorem repeatable_ready_frame (j : RepeatableJob) (registry : List Nat)
    (now : Int) (h : (j.ready_for_schedule registry now).2 = false) :
    (j.ready_for_schedule registry now).1 = j := by
  unfold RepeatableJob.ready_for_schedule at h ⊢
  by_cases hb : BaseJob.ready_for_schedule j.enabled j.job_id registry = false
  · rw [if_pos hb]
  · rw [if_neg hb] at h ⊢
    by_cases hpast : j.scheduled_time < now
    · simp only [if_pos hpast] at h ⊢
      rcases hr : j.repeats with _ | r <;> simp only [hr] at h ⊢
      · by_cases hI : 0 < j.interval_seconds
        · exfalso
          have hge := advance_ge_now j.scheduled_time now j.interval_seconds hI
          rw [if_neg (not_lt.mpr hge)] at h
          simp at h
        · have hI0 : j.interval_seconds = 0 := Nat.eq_zero_of_not_pos hI
          split <;> (simp [hI0]; rw [← hr])
      · by_cases hgap :
          ⌈((now - j.scheduled_time : Int) : ℚ) / (j.interval_seconds : ℚ)⌉ ≤ r
        · rw [if_pos hgap] at h ⊢
          by_cases hI : 0 < j.interval_seconds
          · exfalso
            have hge := advance_ge_now j.scheduled_time now j.interval_seconds hI
            rw [if_neg (not_lt.mpr hge)] at h
            simp at h
          · have hI0 : j.interval_seconds = 0 := Nat.eq_zero_of_not_pos hI
            split <;> (simp [hI0]; rw [← hr])
        · rw [if_neg hgap] at h ⊢
          split <;> rfl
    · rw [if_neg hpast] at h ⊢
      simp [hpast]

/-- Claim C6: when the eligibility check fails, `schedule()` returns `false`
with no side effect: no enqueue call reaches the external queue and every
field of the record is unchanged — for all three job kinds. -/
theorem C6_blocked_schedule_frame :
    (∀ (j : ScheduledJob) (q : QueueState) (now : Int),
        j.ready_for_schedule q.registry now = false →
        j.schedule q now = (j, q, false)) ∧
    (∀ (j : RepeatableJob) (q : QueueState) (now : Int),
        (j.ready_for_schedule q.registry now).2 = false →
        j.schedule q now = (j, q, false)) ∧
    (∀ (j : CronJob) (q : QueueState),
        j.ready_for_schedule q.registry = false →
        j.schedule q = (j, q, false)) := by
  refine ⟨?_, ?_, ?_⟩
  · intro j q now h
    simp [ScheduledJob.schedule, h]
  · intro j q now h
    have hf := repeatable_ready_frame j q.registry now h
    simp [RepeatableJob.schedule, h, hf]
  · intro j q h
    simp [CronJob.schedule, h]

/-- Witness for C6: a disabled record of each kind fails the eligibility
check, and `schedule()` rejects it with no state change. -/
theorem C6_blocked_schedule_frame_witness :
    ((⟨false, none, some 5⟩ : ScheduledJob).ready_for_schedule [] 0
      = false) ∧
    ScheduledJob.schedule ⟨false, none, some 5⟩ ⟨[], 0⟩ 0 =
      (⟨false, none, some 5⟩, ⟨[], 0⟩, false) ∧
    ((⟨false, none, none, 0, 60, IntervalUnit.seconds, none⟩ :
        RepeatableJob).ready_for_schedule [] 90).2 = false ∧
    RepeatableJob.schedule
        ⟨false, none, none, 0, 60, IntervalUnit.seconds, none⟩ ⟨[], 0⟩ 90 =
      (⟨false, none, none, 0, 60, IntervalUnit.seconds, none⟩, ⟨[], 0⟩,
        false) ∧
    ((⟨false, none, "0 * * * *"⟩ : CronJob).ready_for_schedule [] = false) ∧
    CronJob.schedule ⟨false, none, "0 * * * *"⟩ ⟨[], 0⟩ =
      (⟨false, none, "0 * * * *"⟩, ⟨[], 0⟩, false) := by
  refine ⟨by decide, ?_, by decide, ?_, by decide, ?_⟩
  · exact C6_blocked_schedule_frame.1 ⟨false, none, some 5⟩ ⟨[], 0⟩ 0
      (by decide)
  · exact C6_blocked_schedule_frame.2.1
      ⟨false, none, none, 0, 60, IntervalUnit.seconds, none⟩ ⟨[], 0⟩ 90
      (by decide)
  · exact C6_blocked_schedule_frame.2.2 ⟨false, none, "0 * * * *"⟩ ⟨[], 0⟩
      (by decide)

/-- Helper: the eligibility check never moves `scheduled_time` backwards:
the catch-up branch adds `interval_seconds * gap` with `gap ≥ 0`. -/
theorem repeatable_ready_monotone (j : RepeatableJob) (registry : List Nat)
    (now : Int) :
    j.scheduled_time ≤ (j.ready_for_schedule registry now).1.scheduled_time := by
  unfold RepeatableJob.ready_for_schedule
  by_cases hb : BaseJob.ready_for_schedule j.enabled j.job_id registry = false
  · rw [if_pos hb]
  · rw [if_neg hb]
    by_cases hpast : j.scheduled_time < now
    · simp only [if_pos hpast]
      have hg : 0 ≤
          ⌈((now - j.scheduled_time : Int) : ℚ) / (j.interval_seconds : ℚ)⌉ :=
        gap_nonneg _ _ _ hpast
      have hadd : j.scheduled_time ≤
          j.scheduled_time + (j.interval_seconds : Int) *
            ⌈((now - j.scheduled_time : Int) : ℚ) / (j.interval_seconds : ℚ)⌉ := by
        have hm : (0 : Int) ≤ (j.interval_seconds : Int) *
            ⌈((now - j.scheduled_time : Int) : ℚ) / (j.interval_seconds : ℚ)⌉ :=
          mul_nonneg (by exact_mod_cast Nat.zero_le _) hg
        linarith
      rcases hr : j.repeats with _ | r <;> simp only [hr]
      · split <;> simpa using hadd
      · by_cases hgap :
          ⌈((now - j.scheduled_time : Int) : ℚ) / (j.interval_seconds : ℚ)⌉ ≤ r
        · rw [if_pos hgap]
          split <;> simpa using hadd
        · rw [if_neg hgap]
          split <;> simp
    · simp [hpast]

/-- Claim C9: for an interval record, no operation of the scheduling core
decreases `scheduled_time`: the eligibility check (with its catch-up
advancement), `schedule()`, `save()` and `unschedule()` all leave it equal
or move it forward. -/
theorem C9_scheduled_time_monotone (j : RepeatableJob) (q : QueueState)
    (now : Int) :
    j.scheduled_time ≤ (j.ready_for_schedule q.registry now).1.scheduled_time ∧
    j.scheduled_time ≤ (j.schedule q now).1.scheduled_time ∧
    j.scheduled_time ≤ (j.save true q now).1.scheduled_time ∧
    (j.unschedule q).1.scheduled_time = j.scheduled_time := by
  have hready := repeatable_ready_monotone j q.registry now
  have hs : (j.schedule q now).1.scheduled_time =
      (j.ready_for_schedule q.registry now).1.scheduled_time := by
    by_cases h2 : (j.ready_for_schedule q.registry now).2 = false <;>
      simp [RepeatableJob.schedule, h2, BaseJob.enqueue_at]
  refine ⟨hready, ?_, ?_, rfl⟩
  · rw [hs]; exact hready
  · show j.scheduled_time ≤ (j.schedule q now).1.scheduled_time
    rw [hs]; exact hready

/-- Claim C10: a fixed-instant record whose `scheduled_time` is `None`
skips the kind-specific temporal check entirely: `ready_for_schedule`
returns `true` whenever the record is enabled and not already scheduled,
even though no fire instant is configured. -/
theorem C10_none_time_skips_check (j : ScheduledJob) (q : QueueState)
    (now : Int)
    (ht : j.scheduled_time = none)
    (hen : j.enabled = true)
    (hns : BaseJob.is_scheduled j.job_id q.registry = false) :
    j.ready_for_schedule q.registry now = true := by
  simp [ScheduledJob.ready_for_schedule,
    base_ready_of_enabled_not_scheduled _ _ _ hen hns, ht]

/-- Witness for C10: an enabled, unscheduled record without a configured
instant is eligible at an arbitrary `now`. -/
theorem C10_none_time_skips_check_witness :
    ((⟨true, none, none⟩ : ScheduledJob).scheduled_time = none) ∧
    (⟨true, none, none⟩ : ScheduledJob).ready_for_schedule [] 12345 = true :=
  ⟨rfl, C10_none_time_skips_check ⟨true, none, none⟩ ⟨[], 0⟩ 12345
    rfl rfl rfl⟩

/-- Counterexample to C8: a record with 1 repeat remaining,
`result_ttl = 0` (finite, not the indefinite marker `-1`, and shorter than
the 60 s interval) is NOT rejected by `clean_result_ttl`: Python evaluates
`if self.result_ttl and ...` and `0` is falsy, so the check is skipped —
contradicting the claim that all finite TTLs including 0 are rejected. -/
theorem C8_counterexample :
    ((⟨true, none, some 1, 0, 60, IntervalUnit.seconds, some 0⟩ :
        RepeatableJob).result_ttl = some 0 ∧
      (0 : Int) ≠ -1 ∧
      (0 : Int) < ((⟨true, none, some 1, 0, 60, IntervalUnit.seconds,
        some 0⟩ : RepeatableJob).interval_seconds : Int) ∧
      (⟨true, none, some 1, 0, 60, IntervalUnit.seconds, some 0⟩ :
        RepeatableJob).repeats = some 1) ∧
    (⟨true, none, some 1, 0, 60, IntervalUnit.seconds, some 0⟩ :
        RepeatableJob).clean_result_ttl_raises = false := by
  refine ⟨⟨rfl, by decide, ?_, rfl⟩, by decide⟩
  simp [RepeatableJob.interval_seconds, IntervalUnit.factor]

/-- Claim C8 (amended): `clean_result_ttl` raises if and only if the record
has a truthy repeat count (not `None` and not `0`) and a truthy finite
`result_ttl` (not `None` and not `0`), different from the indefinite
marker `-1` and strictly shorter than `interval_seconds`. (The original
claim fails at `result_ttl = 0`, which Python truthiness skips — see the
counterexample.) -/
theorem C8_amended_result_ttl_validation (j : RepeatableJob) :
    j.clean_result_ttl_raises = true ↔
      (∃ v : Int, j.result_ttl = some v ∧ v ≠ 0 ∧ v ≠ -1 ∧
        v < (j.interval_seconds : Int)) ∧
      (∃ r : Int, j.repeats = some r ∧ r ≠ 0) := by
  unfold RepeatableJob.clean_result_ttl_raises
  rcases hv : j.result_ttl with _ | v <;>
    rcases hr : j.repeats with _ | r <;>
      simp <;> aesop

/-- Claim C7: the reconciliation callback resolves the record by the run's
recorded identity. When the metadata carries no job kind, or no record
matches, it does nothing. When a record matches, its effect is exactly
`unschedule()`, then `schedule()`, then persist (`spec_reschedule`, the
order the specification prescribes), committed back to the table. -/
theorem C7_callback_reconciliation :
    (∀ (rid : Nat) (db : List ScheduledJob) (q : QueueState) (now : Int),
        callback_save_job none rid db q now = (db, q)) ∧
    (∀ (mname : String) (rid : Nat) (db : List ScheduledJob)
        (q : QueueState) (now : Int),
        db.find? (fun r => r.job_id == some rid) = none →
        callback_save_job (some mname) rid db q now = (db, q)) ∧
    (∀ (mname : String) (rid : Nat) (db : List ScheduledJob)
        (q : QueueState) (now : Int) (sj : ScheduledJob),
        db.find? (fun r => r.job_id == some rid) = some sj →
        callback_save_job (some mname) rid db q now =
          (updateFirst (fun r => r.job_id == some rid)
            (spec_reschedule sj q now).1 db,
           (spec_reschedule sj q now).2)) := by
  refine ⟨fun _ _ _ _ => rfl, ?_, ?_⟩
  · intro mname rid db q now h
    simp [callback_save_job, h]
  · intro mname rid db q now sj h
    simp [callback_save_job, h, spec_reschedule]

/-- Witness for C7: a one-record table whose record carries the run's id
`0`; the callback rewrites the table with the unschedule-schedule-save
result of that record. -/
theorem C7_callback_reconciliation_witness :
    [(⟨true, some 0, some 50⟩ : ScheduledJob)].find?
        (fun r => r.job_id == some 0) = some ⟨true, some 0, some 50⟩ ∧
    callback_save_job (some "ScheduledJob") 0 [⟨true, some 0, some 50⟩]
        ⟨[0], 1⟩ 100 =
      (updateFirst (fun r => r.job_id == some 0)
        (spec_reschedule ⟨true, some 0, some 50⟩ ⟨[0], 1⟩ 100).1
        [⟨true, some 0, some 50⟩],
       (spec_reschedule ⟨true, some 0, some 50⟩ ⟨[0], 1⟩ 100).2) :=
  ⟨by decide, C7_callback_reconciliation.2.2 "ScheduledJob" 0
    [⟨true, some 0, some 50⟩] ⟨[0], 1⟩ 100 ⟨true, some 0, some 50⟩
    (by decide)⟩

end Scheduler
